import Mathlib

/-!
Shallow embedding of the Supabase deployment-pipeline core of the
dyad-contribution-fork repository: the import classifier and bundler
entry check, the function-name lister, the CLI locator, the serve
process supervisor, and the token manager.  Each definition is a direct
translation of the corresponding TypeScript function; external effects
(filesystem, network, child processes, timers) are passed in as explicit
parameters or event traces.
-/

/-! ## JavaScript string helpers used by the embedded code -/

/-- Whitespace characters recognised by the JS regex class backslash-s
(the ASCII ones, which are the only ones the code ever meets). -/
def isJsWhitespace (c : Char) : Bool :=
  c = ' ' || c = '\t' || c = '\n' || c = '\r' || c = '\x0b' || c = '\x0c'

/-- JS String.prototype.trim: strip whitespace from both ends. -/
def jsTrim (s : String) : String :=
  String.mk (((s.data.dropWhile isJsWhitespace).reverse.dropWhile isJsWhitespace).reverse)

/-- JS truthiness of an optional string: undefined and the empty string
are falsy, every other string is truthy. -/
def jsTruthyString : Option String → Option String
  | none => none
  | some s => if s = "" then none else some s

/-- Split a string at newline characters (models the JS split on the
carriage-return-optional newline regex; the carriage returns left at line
ends are removed by the trim that always follows in the embedded code). -/
def splitLinesAux : List Char → List Char → List (List Char)
  | [], acc => [acc.reverse]
  | c :: rest, acc =>
    if c = '\n' then acc.reverse :: splitLinesAux rest []
    else splitLinesAux rest (c :: acc)

def splitLines (s : String) : List String :=
  (splitLinesAux s.data []).map String.mk

/-! ## Import classifier (bundler plugin)

From the bundler source: normalizePath, isRelativeOrAbsoluteImport, the
externalImportPrefixes regex test, and the onResolve hook of the
externalize-non-relative-imports plugin.  The embedding fixes the posix
platform, where path.sep is the forward slash and path.isAbsolute tests
for a leading forward slash. -/

/-- normalizePath: replace every backslash with the platform separator
(posix: forward slash). -/
def normalizePath (value : String) : String :=
  String.mk (value.data.map fun c => if c = '\\' then '/' else c)

/-- path.isAbsolute on posix. -/
def pathIsAbsolute (p : String) : Bool :=
  p.startsWith "/"

/-- isRelativeOrAbsoluteImport from the bundler source. -/
def isRelativeOrAbsoluteImport (importPath : String) : Bool :=
  importPath.startsWith "." || importPath.startsWith "/" || pathIsAbsolute importPath

/-- Test of the anchored regex matching the http, https, npm and jsr
scheme heads (the externalImportPrefixes constant of the source). -/
def externalImportPrefixes (s : String) : Bool :=
  s.startsWith "http:" || s.startsWith "https:" || s.startsWith "npm:" || s.startsWith "jsr:"

inductive ImportResolution where
  | external
  | inline
  deriving DecidableEq, Repr

/-- The onResolve hook of the externalize-non-relative-imports plugin:
scheme-headed specifiers are marked external, non-relative bare
specifiers are marked external, and relative or absolute specifiers are
handed back to the bundling engine (undefined), which inlines them. -/
def classifyImport (raw : String) : ImportResolution :=
  let specifier := normalizePath raw
  if externalImportPrefixes specifier then ImportResolution.external
  else if ¬ isRelativeOrAbsoluteImport specifier then ImportResolution.external
  else ImportResolution.inline

/-- Restatement of the classification policy in the words of the spec:
rule one, a scheme head gives External; rule two, a leading dot or an
absolute path gives Inline; rule three, everything else gives External. -/
def importClassifierSpec (specifier : String) : ImportResolution :=
  if externalImportPrefixes specifier then ImportResolution.external
  else if specifier.startsWith "." || pathIsAbsolute specifier then ImportResolution.inline
  else ImportResolution.external

/-! ## listSupabaseFunctionNames -/

/-- A directory entry as returned by readdir with file types. -/
structure Dirent where
  name : String
  isDirectory : Bool
  deriving DecidableEq, Repr

/-- Result of the readdir call: a listing, a missing directory (ENOENT),
or another filesystem error. -/
inductive ReaddirResult where
  | ok (entries : List Dirent)
  | enoent
  | failure (message : String)
  deriving DecidableEq, Repr

def SUPABASE_SHARED_DIRECTORY : String := "_shared"

/-- listSupabaseFunctionNames: keep directory entries other than the
shared directory, take their names, sort ascending; a missing functions
directory yields the empty list; other errors are rethrown. -/
def listSupabaseFunctionNames (readdir : ReaddirResult) : Except String (List String) :=
  match readdir with
  | ReaddirResult.ok entries =>
    Except.ok
      (((entries.filter fun entry =>
          entry.isDirectory && entry.name ≠ SUPABASE_SHARED_DIRECTORY).map
        (fun entry => entry.name)).mergeSort (fun a b => decide (a ≤ b)))
  | ReaddirResult.enoent => Except.ok []
  | ReaddirResult.failure message => Except.error message

/-! ## CLI locator

From the source: quoteCommand, getLocalSupabaseCli, getGlobalSupabaseCli
and waitForSupabaseCli.  The process environment, the filesystem
existence predicate and the shell which-lookup are explicit parameters;
the polling loop is fuelled by its iteration count (the five-minute
ceiling divided by the one-second interval).  The embedding fixes the
posix platform (binary name supabase, lookup command which). -/

inductive CliSource where
  | env
  | localInstall
  | globalInstall
  deriving DecidableEq, Repr

structure SupabaseCliLocation where
  command : String
  rawPath : String
  source : CliSource
  deriving DecidableEq, Repr

/-- Escape every double quote of the string with a backslash. -/
def escapeQuotesAux : List Char → List Char
  | [] => []
  | c :: rest =>
    if c = '"' then '\\' :: '"' :: escapeQuotesAux rest
    else c :: escapeQuotesAux rest

def escapeQuotes (s : String) : String :=
  String.mk (escapeQuotesAux s.data)

/-- quoteCommand: escape embedded double quotes, then wrap the whole
value in double quotes when it contains whitespace. -/
def quoteCommand (command : String) : String :=
  let command := if command.data.contains '"' then escapeQuotes command else command
  if command.data.any isJsWhitespace then "\"" ++ command ++ "\"" else command

/-- getLocalSupabaseCli (posix): look for the project-local binary under
node_modules/.bin. -/
def getLocalSupabaseCli (fsExists : String → Bool) (appPath : String) :
    Option SupabaseCliLocation :=
  let localPath := appPath ++ "/node_modules/.bin/supabase"
  if fsExists localPath then
    some { command := quoteCommand localPath, rawPath := localPath,
           source := CliSource.localInstall }
  else none

/-- getGlobalSupabaseCli: run the shell which-lookup; on success take the
first nonempty trimmed output line; on lookup failure return nothing. -/
def getGlobalSupabaseCli (whichResult : Option String) :
    Option SupabaseCliLocation :=
  match whichResult with
  | none => none
  | some stdout =>
    match ((splitLines stdout).map jsTrim).find? (fun line => line ≠ "") with
    | some candidate =>
      some { command := quoteCommand candidate, rawPath := candidate,
             source := CliSource.globalInstall }
    | none => none

/-- Observable effect trace of one waitForSupabaseCli call. -/
structure CliWaitTrace where
  outcome : Except String SupabaseCliLocation
  fsChecks : Nat
  shellLookups : Nat
  sleeps : Nat
  deriving Repr

def cliNotFoundMessage : String :=
  "Supabase CLI not found. Install it with pnpm or npm before running Supabase functions."

/-- The polling loop of waitForSupabaseCli, fuelled by the remaining
iteration count.  Each iteration checks the local install (one filesystem
check), then the global install (one shell lookup), and sleeps for one
interval when neither is found. -/
def waitForSupabaseCliLoop (fsExists : String → Bool) (whichResult : Option String)
    (appPath : String) : Nat → CliWaitTrace
  | 0 => { outcome := Except.error cliNotFoundMessage,
           fsChecks := 0, shellLookups := 0, sleeps := 0 }
  | fuel + 1 =>
    match getLocalSupabaseCli fsExists appPath with
    | some location =>
      { outcome := Except.ok location, fsChecks := 1, shellLookups := 0, sleeps := 0 }
    | none =>
      match getGlobalSupabaseCli whichResult with
      | some location =>
        { outcome := Except.ok location, fsChecks := 1, shellLookups := 1, sleeps := 0 }
      | none =>
        let rest := waitForSupabaseCliLoop fsExists whichResult appPath fuel
        { outcome := rest.outcome, fsChecks := rest.fsChecks + 1,
          shellLookups := rest.shellLookups + 1, sleeps := rest.sleeps + 1 }

/-- Iterations of the polling loop: the five-minute ceiling divided by
the one-second interval. -/
def SUPABASE_CLI_WAIT_ITERATIONS : Nat := 300

/-- waitForSupabaseCli: a set, nonempty-after-trim environment override
is trusted immediately (quoted defensively, no filesystem check, no
shell lookup, no sleep); otherwise the polling loop runs up to the
ceiling. -/
def waitForSupabaseCli (envSupabaseCliPath : Option String)
    (fsExists : String → Bool) (whichResult : Option String)
    (appPath : String) : CliWaitTrace :=
  match jsTruthyString (envSupabaseCliPath.map jsTrim) with
  | some envOverride =>
    { outcome := Except.ok
        { command := quoteCommand envOverride, rawPath := envOverride,
          source := CliSource.env },
      fsChecks := 0, shellLookups := 0, sleeps := 0 }
  | none =>
    waitForSupabaseCliLoop fsExists whichResult appPath SUPABASE_CLI_WAIT_ITERATIONS

/-! ## Serve process supervisor

From runSupabaseServeCommand.  Two embeddings cover its two concerns:
an event state machine for the timer escalation (graceful stop after the
soft duration, forced kill after the further grace window, cancellation
of both timers on exit), and a pure classifier for the close handler. -/

inductive SentSignal where
  | sigterm
  | sigkill
  deriving DecidableEq, Repr

/-- Supervisor-visible state of the spawned serve child.  The killed
field is the Node child.killed flag: it is set once a kill call has
successfully sent a signal, and it does not indicate that the child has
exited. -/
structure ServeState where
  exited : Bool
  killed : Bool
  timersActive : Bool
  sent : List SentSignal
  deriving DecidableEq, Repr

/-- Events driving the supervisor: the soft-duration timer fires (10 s),
the force-kill timer fires (10 s + 4 s), or the child exits.  In the
Node event loop a timer callback runs only while its timer is pending,
which the timersActive guard models (the close handler clears both). -/
inductive ServeEvent where
  | gracefulTimerFires
  | forceTimerFires
  | childExits
  deriving DecidableEq, Repr

/-- One supervisor step, translated from the two setTimeout callbacks and
the cleanup of runSupabaseServeCommand.  The graceful callback sends the
default termination signal when the killed flag is unset; the force
callback sends SIGKILL when the killed flag is unset; a successful send
sets the killed flag; the close event cancels both timers. -/
def serveStep (s : ServeState) (e : ServeEvent) : ServeState :=
  match e with
  | ServeEvent.gracefulTimerFires =>
    if s.timersActive ∧ ¬ s.killed then
      { s with killed := true, sent := s.sent ++ [SentSignal.sigterm] }
    else s
  | ServeEvent.forceTimerFires =>
    if s.timersActive ∧ ¬ s.killed then
      { s with killed := true, sent := s.sent ++ [SentSignal.sigkill] }
    else s
  | ServeEvent.childExits =>
    { s with exited := true, timersActive := false }

def serveInitialState : ServeState :=
  { exited := false, killed := false, timersActive := true, sent := [] }

def serveRun (events : List ServeEvent) : ServeState :=
  events.foldl serveStep serveInitialState

/-- Exit classification of the close handler: success when the exit code
is zero or the terminating signal is SIGTERM or SIGINT. -/
def serveCloseIsSuccess (code : Option Int) (signal : Option String) : Bool :=
  code == some 0 || signal == some "SIGTERM" || signal == some "SIGINT"

/-- The exit-details fragment of the failure message. -/
def serveExitDetails (code : Option Int) (signal : Option String) : String :=
  match code with
  | some c => "exit code " ++ toString c
  | none =>
    match signal with
    | some s => "signal " ++ s
    | none => "unknown exit"

/-- The close handler of runSupabaseServeCommand: resolve on success,
otherwise reject with a message carrying the exit details and the
captured stdout and stderr. -/
def serveCloseResult (errorLabel stdout stderr : String)
    (code : Option Int) (signal : Option String) : Except String Unit :=
  if serveCloseIsSuccess code signal then Except.ok ()
  else Except.error
    (errorLabel ++ " (" ++ serveExitDetails code signal ++ ")\n\nSTDOUT:\n" ++
      stdout ++ "\n\nSTDERR:\n" ++ stderr)

/-! ## Token manager

From isTokenExpired, refreshSupabaseToken and getSupabaseClient.  The
settings store, the current epoch-second time and the outcome of the
refresh fetch are explicit parameters; each run reports the writes it
performed and the number of network exchanges, so that persistence and
refresh-count properties can be stated. -/

structure SecretValue where
  value : String
  deriving DecidableEq, Repr

structure SupabaseSettings where
  accessToken : Option SecretValue
  refreshToken : Option SecretValue
  expiresIn : Option Int
  tokenTimestamp : Option Int
  deriving DecidableEq, Repr

structure Settings where
  supabase : Option SupabaseSettings
  deriving DecidableEq, Repr

/-- JS or-zero fallback on an optional number (zero and undefined both
give zero). -/
def jsNumberOrZero (n : Option Int) : Int :=
  n.getD 0

/-- The stored issue time as isTokenExpired reads it: the tokenTimestamp
field of the settings with the or-zero fallback. -/
def issuedAtOf (settings : Settings) : Int :=
  jsNumberOrZero (settings.supabase.bind fun s => s.tokenTimestamp)

/-- The optional-chained access-token value of the settings, with JS
truthiness (an empty string counts as absent). -/
def storedAccessToken (settings : Settings) : Option String :=
  jsTruthyString ((settings.supabase.bind fun s => s.accessToken).map fun t => t.value)

/-- The optional-chained refresh-token value of the settings, with JS
truthiness. -/
def storedRefreshToken (settings : Settings) : Option String :=
  jsTruthyString ((settings.supabase.bind fun s => s.refreshToken).map fun t => t.value)

/-- The optional-chained expiresIn field of the settings. -/
def storedExpiresIn (settings : Settings) : Option Int :=
  settings.supabase.bind fun s => s.expiresIn

/-- isTokenExpired: an absent or zero expiresIn means always stale;
otherwise stale when the current time has reached the issue time plus
expiresIn minus the five-minute margin. -/
def isTokenExpired (settings : Settings) (currentTime : Int)
    (expiresIn : Option Int) : Bool :=
  match expiresIn with
  | none => true
  | some e =>
    if e = 0 then true
    else decide (currentTime ≥ issuedAtOf settings + e - 300)

/-- The parsed body and status of the refresh-endpoint response. -/
structure RefreshResponse where
  status : Int
  statusText : String
  accessToken : String
  refreshToken : String
  expiresIn : Option Int
  deriving DecidableEq, Repr

/-- The ok flag of a fetch response: status in the 2xx range. -/
def responseOk (status : Int) : Bool :=
  200 ≤ status && status < 300

def noRefreshTokenMessage : String :=
  "Supabase refresh token not found. Please authenticate first."

def refreshFailedMessage (statusText : String) : String :=
  "Supabase token refresh failed. Try going to Settings to disconnect Supabase and then reconnect to Supabase. Error status: " ++ statusText

/-- Observable outcome of one refreshSupabaseToken run: the settings
store afterwards, the writeSettings calls performed, the number of fetch
exchanges performed, and the returned or thrown result. -/
structure RefreshResult where
  settings : Settings
  networkCalls : Nat
  writes : List SupabaseSettings
  outcome : Except String Unit
  deriving Repr

/-- refreshSupabaseToken: return at once when the stored token is not
stale; fail when no refresh token is on record; otherwise perform the
refresh exchange, and on a 2xx response persist the new token record
(with the current time as its timestamp) in a single settings write,
while any failure writes nothing and propagates.  The fetchResult
parameter carries either the parsed response or a network error. -/
def refreshSupabaseToken (settings : Settings) (now : Int)
    (fetchResult : Except String RefreshResponse) : RefreshResult :=
  if ¬ isTokenExpired settings now (storedExpiresIn settings) then
    { settings := settings, networkCalls := 0, writes := [], outcome := Except.ok () }
  else
    match storedRefreshToken settings with
    | none =>
      { settings := settings, networkCalls := 0, writes := [],
        outcome := Except.error noRefreshTokenMessage }
    | some _ =>
      match fetchResult with
      | Except.error networkError =>
        { settings := settings, networkCalls := 1, writes := [],
          outcome := Except.error networkError }
      | Except.ok response =>
        if ¬ responseOk response.status then
          { settings := settings, networkCalls := 1, writes := [],
            outcome := Except.error (refreshFailedMessage response.statusText) }
        else
          let newSupabase : SupabaseSettings :=
            { accessToken := some { value := response.accessToken },
              refreshToken := some { value := response.refreshToken },
              expiresIn := response.expiresIn,
              tokenTimestamp := some now }
          { settings := { supabase := some newSupabase }, networkCalls := 1,
            writes := [newSupabase], outcome := Except.ok () }

def accessTokenNotFoundMessage : String :=
  "Supabase access token not found. Please authenticate first."

def refreshDidNotProduceTokenMessage : String :=
  "Failed to refresh Supabase access token"

/-- Observable outcome of one getSupabaseClient run: the access token
the management client is built with (or the thrown error), the number of
refresh exchanges performed, and the settings store afterwards. -/
structure ClientResult where
  outcome : Except String String
  networkCalls : Nat
  settings : Settings
  deriving Repr

/-- getSupabaseClient: fail when no access token is stored; when the
stored token is stale run refreshSupabaseToken (under the named lock,
which for a single caller is just the call) and re-read the store for
the fresh token; otherwise use the stored token directly. -/
def getSupabaseClient (settings : Settings) (now : Int)
    (fetchResult : Except String RefreshResponse) : ClientResult :=
  match storedAccessToken settings with
  | none =>
    { outcome := Except.error accessTokenNotFoundMessage, networkCalls := 0,
      settings := settings }
  | some token =>
    if isTokenExpired settings now (storedExpiresIn settings) then
      let r := refreshSupabaseToken settings now fetchResult
      match r.outcome with
      | Except.error e =>
        { outcome := Except.error e, networkCalls := r.networkCalls, settings := r.settings }
      | Except.ok _ =>
        match storedAccessToken r.settings with
        | none =>
          { outcome := Except.error refreshDidNotProduceTokenMessage,
            networkCalls := r.networkCalls, settings := r.settings }
        | some newToken =>
          { outcome := Except.ok newToken, networkCalls := r.networkCalls,
            settings := r.settings }
    else
      { outcome := Except.ok token, networkCalls := 0, settings := settings }

/-- Modelled from the spec: the generic locking primitive withLock (from
the lock-utils module, which is not among the given source files) is a
mutual-exclusion lock keyed by name; of two tasks queued on the same
name it runs the first critical section to completion and only then the
second.  Here both queued sections are refreshSupabaseToken bodies, as
in getSupabaseClient under the name refresh-supabase-token. -/
def withLockTwo (first second : Settings → RefreshResult) (s0 : Settings) :
    RefreshResult × RefreshResult :=
  let r1 := first s0
  let r2 := second r1.settings
  (r1, r2)

/-- Two getSupabaseClient callers racing on the same store: both read
the store and find the token stale before either enters the lock; the
lock then serializes their refresh sections; afterwards each re-reads
the store.  Returns the total number of refresh exchanges and the store
as the losing caller re-reads it. -/
def twoConcurrentGetSupabaseClient (s0 : Settings) (now : Int)
    (fetch1 fetch2 : Except String RefreshResponse) : Nat × Settings :=
  let pair := withLockTwo
    (fun s => refreshSupabaseToken s now fetch1)
    (fun s => refreshSupabaseToken s now fetch2) s0
  (pair.1.networkCalls + pair.2.networkCalls, pair.2.settings)

/-! ## Deployment pipeline (deploySupabaseFunctions, non-test build) -/

/-- The spawn request handed to the process runner: the shell command
string, the working directory, and the child environment map. -/
structure SpawnRequest where
  command : String
  cwd : String
  env : String → Option String

def missingDeployTokenMessage : String :=
  "Missing Supabase access token for deployment"

/-- deploySupabaseFunctions (non-test build, with the CLI location and
the caller environment as parameters): obtain the client access token,
fail when it is absent, and spawn the deploy subcommand with the access
token injected into the child environment.  The baseEnv parameter is the
string-valued part of the caller environment. -/
def deploySupabaseFunctions (settings : Settings) (now : Int)
    (fetchResult : Except String RefreshResponse) (cli : SupabaseCliLocation)
    (baseEnv : String → Option String)
    (supabaseProjectId functionName appPath : String) : Except String SpawnRequest :=
  match (getSupabaseClient settings now fetchResult).outcome with
  | Except.error e => Except.error e
  | Except.ok accessToken =>
    if accessToken = "" then Except.error missingDeployTokenMessage
    else Except.ok
      { command := cli.command ++ " functions deploy " ++ functionName ++
          " --project-ref " ++ supabaseProjectId ++ " --no-verify-jwt",
        cwd := appPath,
        env := fun key =>
          if key = "SUPABASE_ACCESS_TOKEN" then some accessToken else baseEnv key }

/-! ## Bundler entry check (bundleSupabaseFunction) -/

/-- Observable outcome of one bundleSupabaseFunction run: the returned
bundle text or thrown error, and whether the esbuild build step was
invoked. -/
structure BundleTrace where
  outcome : Except String String
  buildInvoked : Bool

def SUPABASE_FUNCTIONS_ROOT : String := "supabase/functions"

/-- The entry-point path of a function: functions root and function
directory joined under the app path, with the index file name. -/
def entryPointFor (appPath functionName : String) : String :=
  appPath ++ "/" ++ SUPABASE_FUNCTIONS_ROOT ++ "/" ++ functionName ++ "/index.ts"

def entryPointMissingMessage (functionName entryPoint : String) : String :=
  "Supabase function \"" ++ functionName ++
    "\" must include an index.ts entry point. Expected file at " ++ entryPoint ++ "."

def bundleNoOutputMessage (functionName : String) : String :=
  "Failed to bundle Supabase function \"" ++ functionName ++ "\". No output generated."

/-- bundleSupabaseFunction: check that the entry point exists before
anything else and fail with the entry-point message when it does not;
only then invoke the build step, whose first output-file text (absent or
empty meaning no output) is the bundle. -/
def bundleSupabaseFunction (fsAccess : String → Bool) (buildOutput : Option String)
    (appPath functionName : String) : BundleTrace :=
  let entryPoint := entryPointFor appPath functionName
  if ¬ fsAccess entryPoint then
    { outcome := Except.error (entryPointMissingMessage functionName entryPoint),
      buildInvoked := false }
  else
    match jsTruthyString buildOutput with
    | none =>
      { outcome := Except.error (bundleNoOutputMessage functionName), buildInvoked := true }
    | some text => { outcome := Except.ok text, buildInvoked := true }

/-! ## Theorems -/

/-- Claim C6: for every import specifier encountered during bundling,
after path-separator normalization, a specifier matching the http, https,
npm or jsr scheme regex is classified External; otherwise a specifier
starting with a dot or an absolute path is classified Inline; every other
bare specifier is classified External.  Stated as: the plugin hook agrees
with the spec-worded classifier on the normalized specifier. -/
theorem classifyImport_follows_spec (raw : String) :
    classifyImport raw = importClassifierSpec (normalizePath raw) := by
  simp only [classifyImport, importClassifierSpec, isRelativeOrAbsoluteImport, pathIsAbsolute]
  by_cases h1 : externalImportPrefixes (normalizePath raw) <;>
    by_cases h2 : (normalizePath raw).startsWith "." <;>
      by_cases h3 : (normalizePath raw).startsWith "/" <;>
        simp [h1, h2, h3]

/-- Claim C10: listSupabaseFunctionNames returns exactly the names of the
directory entries that are directories, excluding the reserved shared
directory, sorted ascending; and a missing functions directory (ENOENT)
yields the empty list rather than a failure. -/
theorem listSupabaseFunctionNames_sorted_filter (entries : List Dirent) :
    (∃ out, listSupabaseFunctionNames (ReaddirResult.ok entries) = Except.ok out ∧
      out.Perm ((entries.filter fun entry =>
        entry.isDirectory && entry.name ≠ SUPABASE_SHARED_DIRECTORY).map
          fun entry => entry.name) ∧
      out.Pairwise (fun a b : String => a ≤ b)) ∧
    listSupabaseFunctionNames ReaddirResult.enoent = Except.ok [] := by
  refine ⟨⟨_, rfl, List.mergeSort_perm _ _, ?_⟩, rfl⟩
  have h := @List.sorted_mergeSort String (fun a b => decide (a ≤ b))
    (fun a b c hab hbc => by
      simp only [decide_eq_true_eq] at *
      exact le_trans hab hbc)
    (fun a b => by
      simp only [Bool.or_eq_true, decide_eq_true_eq]
      exact le_total a b)
    ((entries.filter fun entry =>
        entry.isDirectory && entry.name ≠ SUPABASE_SHARED_DIRECTORY).map
      fun entry => entry.name)
  exact h.imp fun hab => by simpa using hab

/-- Claim C8: bundleSupabaseFunction fails with the entry-point-missing
error when the index file of the function does not exist, before the
build step is ever invoked; when the entry file exists the entry-point
check does not fail and the build step is reached. -/
theorem bundleSupabaseFunction_entry_check (fsAccess : String → Bool)
    (buildOutput : Option String) (appPath functionName : String) :
    (fsAccess (entryPointFor appPath functionName) = false →
      bundleSupabaseFunction fsAccess buildOutput appPath functionName =
        { outcome := Except.error (entryPointMissingMessage functionName
            (entryPointFor appPath functionName)), buildInvoked := false }) ∧
    (fsAccess (entryPointFor appPath functionName) = true →
      (bundleSupabaseFunction fsAccess buildOutput appPath functionName).buildInvoked = true) := by
  constructor
  · intro h
    simp [bundleSupabaseFunction, h]
  · intro h
    simp only [bundleSupabaseFunction, h]
    cases jsTruthyString buildOutput <;> simp

/-- The success test of the serve close handler, as a proposition. -/
theorem serveCloseIsSuccess_iff (code : Option Int) (signal : Option String) :
    serveCloseIsSuccess code signal = true ↔
      code = some 0 ∨ signal = some "SIGTERM" ∨ signal = some "SIGINT" := by
  simp [serveCloseIsSuccess]
  tauto

/-- Claim C2: a bounded serve invocation is classified a success exactly
when the exit code is zero or the terminating signal is the graceful or
interrupt signal (SIGTERM or SIGINT); every other exit rejects with an
error message that carries the captured stdout and stderr. -/
theorem serveClose_classification (errorLabel stdout stderr : String)
    (code : Option Int) (signal : Option String) :
    (serveCloseResult errorLabel stdout stderr code signal = Except.ok () ↔
      code = some 0 ∨ signal = some "SIGTERM" ∨ signal = some "SIGINT") ∧
    (serveCloseResult errorLabel stdout stderr code signal = Except.ok () ∨
      ∃ a b, serveCloseResult errorLabel stdout stderr code signal =
        Except.error (a ++ stdout ++ b ++ stderr)) := by
  by_cases hs : serveCloseIsSuccess code signal = true
  · constructor
    · simp [serveCloseResult, hs, (serveCloseIsSuccess_iff code signal).mp hs]
    · left
      simp [serveCloseResult, hs]
  · constructor
    · rw [show serveCloseResult errorLabel stdout stderr code signal =
        Except.error (errorLabel ++ " (" ++ serveExitDetails code signal ++ ")\n\nSTDOUT:\n" ++
          stdout ++ "\n\nSTDERR:\n" ++ stderr) from by simp [serveCloseResult, hs]]
      simp only [← serveCloseIsSuccess_iff code signal]
      constructor
      · intro hbad
        exact absurd hbad (by simp)
      · intro hbad
        exact absurd hbad hs
    · right
      refine ⟨errorLabel ++ " (" ++ serveExitDetails code signal ++ ")\n\nSTDOUT:\n",
        "\n\nSTDERR:\n", ?_⟩
      simp [serveCloseResult, hs]

/-- Claim C9: when the CLI path environment override is set and nonempty
after trimming, the locator returns immediately with source env and the
defensively quoted override as the command, performing no filesystem
check, no shell lookup and no polling sleep. -/
theorem waitForSupabaseCli_env_override (envSupabaseCliPath : Option String)
    (fsExists : String → Bool) (whichResult : Option String) (appPath : String)
    (t : String) (h : jsTruthyString (envSupabaseCliPath.map jsTrim) = some t) :
    waitForSupabaseCli envSupabaseCliPath fsExists whichResult appPath =
      { outcome := Except.ok
          { command := quoteCommand t, rawPath := t, source := CliSource.env },
        fsChecks := 0, shellLookups := 0, sleeps := 0 } := by
  unfold waitForSupabaseCli
  rw [h]

/-- Witness for claim C9: the override /x/y yields the command /x/y with
source env and no filesystem, shell or sleep effects. -/
theorem waitForSupabaseCli_env_override_witness :
    waitForSupabaseCli (some "/x/y") (fun _ => true) (some "/usr/bin/supabase") "/app" =
      { outcome := Except.ok
          { command := "/x/y", rawPath := "/x/y", source := CliSource.env },
        fsChecks := 0, shellLookups := 0, sleeps := 0 } :=
  waitForSupabaseCli_env_override (some "/x/y") (fun _ => true)
    (some "/usr/bin/supabase") "/app" "/x/y" (by decide)

/-- Claim C1, evaluated at the failing trace: when the child has not
exited at the soft duration the graceful signal is sent, but if the
child then ignores it and is still running when the force timer fires,
no SIGKILL is ever sent — the force callback is guarded by the killed
flag, which the successful graceful send already set.  Timer
cancellation on exit does hold: a child that exits first receives no
signal at all. -/
theorem serveSupervisor_forceKill_never_fires :
    (serveRun [ServeEvent.gracefulTimerFires]).sent = [SentSignal.sigterm] ∧
    (serveRun [ServeEvent.gracefulTimerFires, ServeEvent.forceTimerFires]).exited = false ∧
    (serveRun [ServeEvent.gracefulTimerFires, ServeEvent.forceTimerFires]).sent =
      [SentSignal.sigterm] ∧
    SentSignal.sigkill ∉
      (serveRun [ServeEvent.gracefulTimerFires, ServeEvent.forceTimerFires]).sent ∧
    (serveRun [ServeEvent.childExits, ServeEvent.gracefulTimerFires,
      ServeEvent.forceTimerFires]).sent = [] := by
  decide


/-- The record refreshSupabaseToken persists on a successful exchange. -/
def refreshedRecord (response : RefreshResponse) (now : Int) : SupabaseSettings :=
  { accessToken := some { value := response.accessToken },
    refreshToken := some { value := response.refreshToken },
    expiresIn := response.expiresIn, tokenTimestamp := some now }

/-- A fully populated token record, used to state concrete instances. -/
def tokenRecord (access refresh : String) (expIn issued : Int) : SupabaseSettings :=
  { accessToken := some { value := access }, refreshToken := some { value := refresh },
    expiresIn := some expIn, tokenTimestamp := some issued }

/-- Settings holding one token record. -/
def settingsWith (record : SupabaseSettings) : Settings :=
  { supabase := some record }

/-- For settings holding a full token record with a nonzero expiry, one
getSupabaseClient run performs one refresh exchange exactly when the
staleness rule fires, and none otherwise. -/
theorem getSupabaseClient_calls_record (now issued expIn : Int) (access refresh : String)
    (fetchResult : Except String RefreshResponse) (ha : access ≠ "") (hr : refresh ≠ "")
    (hez : expIn ≠ 0) :
    (getSupabaseClient (settingsWith (tokenRecord access refresh expIn issued))
        now fetchResult).networkCalls =
      if now ≥ issued + expIn - 300 then 1 else 0 := by
  by_cases hc : now ≥ issued + expIn - 300
  · rw [if_pos hc]
    cases fetchResult with
    | error e =>
      simp [getSupabaseClient, refreshSupabaseToken, storedAccessToken, storedRefreshToken,
        storedExpiresIn, jsTruthyString, isTokenExpired, issuedAtOf, jsNumberOrZero,
        settingsWith, tokenRecord, ha, hr, hez, hc]
    | ok response =>
      by_cases hok : responseOk response.status
      · by_cases hat : response.accessToken = "" <;>
          simp [getSupabaseClient, refreshSupabaseToken, storedAccessToken, storedRefreshToken,
            storedExpiresIn, jsTruthyString, isTokenExpired, issuedAtOf, jsNumberOrZero,
            settingsWith, tokenRecord, ha, hr, hez, hc, hok, hat]
      · simp [getSupabaseClient, refreshSupabaseToken, storedAccessToken, storedRefreshToken,
          storedExpiresIn, jsTruthyString, isTokenExpired, issuedAtOf, jsNumberOrZero,
          settingsWith, tokenRecord, ha, hr, hez, hc, hok]
  · rw [if_neg hc]
    simp [getSupabaseClient, storedAccessToken, storedExpiresIn, jsTruthyString,
      isTokenExpired, issuedAtOf, jsNumberOrZero, settingsWith, tokenRecord, ha, hez, hc]

/-- Claim C3: a stored token is stale exactly when expiresIn is absent or
zero, or the current time has reached the stored issue time plus
expiresIn minus the 300-second safety margin; in particular, with an
issue time 4000 seconds before now and a 3600-second expiry one
getSupabaseClient run performs exactly one refresh exchange, and with an
issue time 60 seconds before now it performs none. -/
theorem isTokenExpired_staleness (settings : Settings) (now : Int) (expiresIn : Option Int) :
    (isTokenExpired settings now expiresIn = true ↔
      expiresIn = none ∨ expiresIn = some 0 ∨
        ∃ e, expiresIn = some e ∧ now ≥ issuedAtOf settings + e - 300) ∧
    (∀ access refresh : String, ∀ fetchResult : Except String RefreshResponse,
      access ≠ "" → refresh ≠ "" →
      (getSupabaseClient (settingsWith (tokenRecord access refresh 3600 (now - 4000)))
          now fetchResult).networkCalls = 1 ∧
      (getSupabaseClient (settingsWith (tokenRecord access refresh 3600 (now - 60)))
          now fetchResult).networkCalls = 0) := by
  constructor
  · cases expiresIn with
    | none => simp [isTokenExpired]
    | some e =>
      by_cases he : e = 0
      · subst he; simp [isTokenExpired]
      · simp [isTokenExpired, he]
  · intro access refresh fetchResult ha hr
    constructor
    · rw [getSupabaseClient_calls_record now (now - 4000) 3600 access refresh fetchResult
        ha hr (by omega)]
      rw [if_pos (by omega)]
    · rw [getSupabaseClient_calls_record now (now - 60) 3600 access refresh fetchResult
        ha hr (by omega)]
      rw [if_neg (by omega)]

/-- Claim C4: a refreshSupabaseToken run that performs the exchange and
succeeds persists the new access token, refresh token, expiry and the
current time as timestamp in a single settings write; every failing run
writes nothing and leaves the store untouched while propagating the
error; and a run whose exchange got a non-2xx response fails with the
status text in the error message. -/
theorem refreshSupabaseToken_persistence (settings : Settings) (now : Int)
    (fetchResult : Except String RefreshResponse) :
    ((refreshSupabaseToken settings now fetchResult).writes.length ≤ 1) ∧
    (∀ response, fetchResult = Except.ok response →
      (refreshSupabaseToken settings now fetchResult).networkCalls = 1 →
      (refreshSupabaseToken settings now fetchResult).outcome = Except.ok () →
      (refreshSupabaseToken settings now fetchResult).writes = [refreshedRecord response now] ∧
      (refreshSupabaseToken settings now fetchResult).settings =
        settingsWith (refreshedRecord response now)) ∧
    (∀ msg, (refreshSupabaseToken settings now fetchResult).outcome = Except.error msg →
      (refreshSupabaseToken settings now fetchResult).writes = [] ∧
      (refreshSupabaseToken settings now fetchResult).settings = settings) ∧
    (∀ response, fetchResult = Except.ok response →
      (refreshSupabaseToken settings now fetchResult).networkCalls = 1 →
      responseOk response.status = false →
      ∃ a, (refreshSupabaseToken settings now fetchResult).outcome =
        Except.error (a ++ response.statusText)) := by
  by_cases hstale : isTokenExpired settings now (storedExpiresIn settings)
  · cases htok : storedRefreshToken settings with
    | none =>
      simp [refreshSupabaseToken, hstale, htok]
    | some tok =>
      cases fetchResult with
      | error e =>
        simp [refreshSupabaseToken, hstale, htok]
      | ok response =>
        by_cases hok : responseOk response.status
        · simp [refreshSupabaseToken, hstale, htok, hok, refreshedRecord, settingsWith]
        · simp only [refreshSupabaseToken, hstale, htok, hok, refreshFailedMessage]
          simp [hok]
          exact ⟨_, rfl⟩
  · simp [refreshSupabaseToken, hstale]

/-- Claim C5: two getSupabaseClient callers racing on a stale token
perform exactly one refresh exchange in total: the named lock serializes
the two refresh sections, the loser re-checks staleness inside the lock
and returns without a network call, and the store it then re-reads holds
the winner's fresh token record. -/
theorem tokenRefresh_race_single_exchange (s0 : Settings) (now e : Int)
    (response : RefreshResponse) (fetch2 : Except String RefreshResponse) (tok : String)
    (hstale : isTokenExpired s0 now (storedExpiresIn s0) = true)
    (htok : storedRefreshToken s0 = some tok)
    (hok : responseOk response.status = true)
    (he : response.expiresIn = some e) (hfresh : 300 < e) :
    twoConcurrentGetSupabaseClient s0 now (Except.ok response) fetch2 =
      (1, settingsWith (refreshedRecord response now)) := by
  have h1 : refreshSupabaseToken s0 now (Except.ok response) =
      { settings := settingsWith (refreshedRecord response now), networkCalls := 1,
        writes := [refreshedRecord response now], outcome := Except.ok () } := by
    simp [refreshSupabaseToken, hstale, htok, hok, refreshedRecord, settingsWith]
  have hnotstale : isTokenExpired (settingsWith (refreshedRecord response now)) now
      (storedExpiresIn (settingsWith (refreshedRecord response now))) = false := by
    simp [storedExpiresIn, settingsWith, refreshedRecord, he, isTokenExpired,
      issuedAtOf, jsNumberOrZero]
    omega
  have h2 : refreshSupabaseToken (settingsWith (refreshedRecord response now)) now fetch2 =
      { settings := settingsWith (refreshedRecord response now), networkCalls := 0,
        writes := [], outcome := Except.ok () } := by
    simp [refreshSupabaseToken, hnotstale]
  simp [twoConcurrentGetSupabaseClient, withLockTwo, h1, h2]

/-- The refresh-endpoint response used by the race witness. -/
def witnessResponse : RefreshResponse :=
  { status := 200, statusText := "OK", accessToken := "new", refreshToken := "nr",
    expiresIn := some 3600 }

/-- Witness for claim C5: from a store whose token was issued 4000
seconds ago with a 3600-second expiry, two racing callers perform one
exchange in total and the loser observes the fresh record. -/
theorem tokenRefresh_race_single_exchange_witness :
    twoConcurrentGetSupabaseClient (settingsWith (tokenRecord "old" "r" 3600 0)) 4000
      (Except.ok witnessResponse) (Except.error "network unavailable") =
      (1, settingsWith (refreshedRecord witnessResponse 4000)) :=
  tokenRefresh_race_single_exchange (settingsWith (tokenRecord "old" "r" 3600 0)) 4000 3600
    witnessResponse (Except.error "network unavailable") "r"
    (by decide) (by decide) (by decide) rfl (by decide)

/-- Claim C7: a deploy with a valid access token spawns exactly the
deploy subcommand built from the CLI command, the function name and the
project ref with JWT verification disabled, in the app directory, with a
child environment equal to the caller environment plus the access token
under SUPABASE_ACCESS_TOKEN; the command string is built without the
access token. -/
theorem deploySupabaseFunctions_command_and_env (settings : Settings) (now : Int)
    (fetchResult : Except String RefreshResponse) (cli : SupabaseCliLocation)
    (baseEnv : String → Option String)
    (supabaseProjectId functionName appPath accessToken : String)
    (h : (getSupabaseClient settings now fetchResult).outcome = Except.ok accessToken)
    (hne : accessToken ≠ "") :
    ∃ req, deploySupabaseFunctions settings now fetchResult cli baseEnv
        supabaseProjectId functionName appPath = Except.ok req ∧
      req.command = cli.command ++ " functions deploy " ++ functionName ++
        " --project-ref " ++ supabaseProjectId ++ " --no-verify-jwt" ∧
      req.cwd = appPath ∧
      req.env "SUPABASE_ACCESS_TOKEN" = some accessToken ∧
      (∀ key, key ≠ "SUPABASE_ACCESS_TOKEN" → req.env key = baseEnv key) := by
  unfold deploySupabaseFunctions
  rw [h]
  simp only [if_neg hne]
  refine ⟨_, rfl, rfl, rfl, by simp, ?_⟩
  intro key hk
  simp [hk]

/-- Witness for claim C7: deploying hello-world to project-ref with a
valid token yields exactly the expected command string and token-bearing
environment. -/
theorem deploySupabaseFunctions_command_and_env_witness :
    ∃ req, deploySupabaseFunctions
        (settingsWith (tokenRecord "test-token" "refresh-token" 3600 1000)) 1000
        (Except.error "down")
        { command := "supabase", rawPath := "supabase", source := CliSource.env }
        (fun _ => none) "project-ref" "hello-world" "/path/to/app" = Except.ok req ∧
      req.command =
        "supabase functions deploy hello-world --project-ref project-ref --no-verify-jwt" ∧
      req.cwd = "/path/to/app" ∧
      req.env "SUPABASE_ACCESS_TOKEN" = some "test-token" ∧
      (∀ key, key ≠ "SUPABASE_ACCESS_TOKEN" → req.env key = none) :=
  deploySupabaseFunctions_command_and_env
    (settingsWith (tokenRecord "test-token" "refresh-token" 3600 1000)) 1000
    (Except.error "down")
    { command := "supabase", rawPath := "supabase", source := CliSource.env }
    (fun _ => none) "project-ref" "hello-world" "/path/to/app" "test-token"
    rfl (by decide)
